import Mathlib

/-!
# Verification of the Mapsy route-planning and map-synchronization core

Shallow embedding of the Mapsy map client (TypeScript/React) together with
proofs about its behaviour.  JavaScript numbers appearing in the sources
carry at most six decimal places, so coordinates are modelled exactly as
integers in units of 10⁻⁶ degree ("microdegrees"): the literal `0.01` of
the source becomes `10000`, `0.005` becomes `5000`, and `toFixed(6)`
becomes exact decimal printing.  Coordinate pairs follow the
`[longitude, latitude]` convention of `src/types/maps.ts`.  Distances
(meters) and durations (seconds) are carried verbatim as integers.
Provider calls (`fetch` + `response.json()`) are modelled as explicit
inputs carrying either a parsed response or a failure, so each handler
becomes a pure function from its inputs and the provider outcome to the
state commits and render effects it performs.

The repository contains several variants of the same components; where a
claim cites a particular variant, the embedding carries a suffix:
* `...A` — the autocomplete `DirectionsPanel` concatenated into
  `src/types/maps.ts` (the variant that checks `data.code === 'NoRoute'`
  and reports errors through `setRouteError`);
* `...B` — `src/components/DirectionsPanel.tsx` (the variant whose
  `catch` falls back to a mock route);
* `...C` — the pure-mock `DirectionsPanel` in `src/unnamed/part_003`;
* `...P1` — the Mapbox `MapView` in `src/unnamed/part_001`;
* `...P2` — the Leaflet `MapView` in `src/unnamed/part_002`
  (`src/unnamed/part_000` is an earlier edition of the same component).
-/

/-- `Location` from `src/types/maps.ts`: coordinates are `(lon, lat)`
in microdegrees. -/
structure Location where
  id : String
  name : String
  address : String
  coordinates : Int × Int
deriving Repr, DecidableEq

/-- `RouteStep` from `src/types/maps.ts`. -/
structure RouteStep where
  id : String
  instruction : String
  distance : Int
  duration : Int
  coordinates : List (Int × Int)
deriving Repr, DecidableEq

/-- `Route` from `src/types/maps.ts`. -/
structure Route where
  id : String
  origin : Location
  destination : Location
  distance : Int
  duration : Int
  steps : List RouteStep
  geometry : List (Int × Int)
deriving Repr, DecidableEq

/-- `SearchResult` from `src/types/maps.ts`. -/
structure SearchResult where
  id : String
  name : String
  address : String
  coordinates : Int × Int
  type : String
deriving Repr, DecidableEq

/-- Outcome of a `fetch(...)` + `response.json()` pair: either a parsed
response or a thrown error (network failure or malformed JSON). -/
inductive FetchResult (α : Type) where
  | success (a : α)
  | failure
deriving Repr, DecidableEq

/-- JavaScript `a || b` on an optional string: `undefined` and the empty
string are falsy, so both select the default. -/
def jsOr (a : Option String) (b : String) : String :=
  match a with
  | some s => if s = "" then b else s
  | none => b

/-- Left-pad a decimal digit string with zeros to width `w`
(used for the fractional part of `toFixed(6)`). -/
def padLeftZeros (s : String) (w : Nat) : String :=
  ⟨List.replicate (w - s.length) '0'⟩ ++ s

/-- `x.toFixed(6)` on a microdegree value: sign, integer part, a dot,
and six fraction digits.  Exact, because microdegree values have at most
six decimal places. -/
def toFixed6 (q : Int) : String :=
  (if q < 0 then "-" else "")
    ++ toString (q.natAbs / 1000000) ++ "."
    ++ padLeftZeros (toString (q.natAbs % 1000000)) 6

/-- The template string interpolating `lat.toFixed(6)` and
`lng.toFixed(6)`, used as the synthesized address when reverse geocoding
fails or yields no display name. -/
def fmtLatLng (lat lng : Int) : String :=
  toFixed6 lat ++ ", " ++ toFixed6 lng

/-- One entry of `legs[0].steps` in a parsed OSRM routing response.
`instruction` is `step.maneuver.instruction`; `none` models a missing
field (the source applies `|| ...` to it, so `none` and the empty string
behave alike). -/
structure OsrmStep where
  instruction : Option String
  distance : Int
  duration : Int
  coordinates : List (Int × Int)
deriving Repr, DecidableEq

/-- One entry of `routes` in a parsed OSRM response.  The sources only
ever read `legs[0].steps`, so the single leg is inlined as `steps`. -/
structure OsrmRoute where
  distance : Int
  duration : Int
  geometry : List (Int × Int)
  steps : List OsrmStep
deriving Repr, DecidableEq

/-- A parsed OSRM routing response: the `code` field and the `routes`
array (an absent `routes` field behaves like the empty list in the
sources, which only test `data.routes && data.routes.length > 0`). -/
structure OsrmResponse where
  code : String
  routes : List OsrmRoute
deriving Repr, DecidableEq

/-- What a `calculateRoute` invocation does: commit a route through
`onRouteCalculated`, surface an error message through `setRouteError`
(or, in variants without that state, leave only a console log), or do
nothing (missing origin/destination). -/
inductive CalcOutcome where
  | routeCommitted (r : Route)
  | errorShown (msg : String)
  | noAction
deriving Repr, DecidableEq

/-- `true` iff the outcome committed a route via `onRouteCalculated`. -/
def CalcOutcome.isCommitted : CalcOutcome → Bool
  | .routeCommitted _ => true
  | _ => false

/-- `routeData.legs[0].steps.map((step, index) => ...)` — one step of the
provider route, with the synthetic sequential id `step-`index and the
`|| `Step n`` default instruction. -/
def mkStep (i : Nat) (s : OsrmStep) : RouteStep :=
  { id := "step-" ++ toString i
    instruction := jsOr s.instruction ("Step " ++ toString (i + 1))
    distance := s.distance
    duration := s.duration
    coordinates := s.coordinates }

/-- Index-carrying recursion implementing the `.map((step, index) => ...)`
over provider steps. -/
def mkStepsAux (i : Nat) : List OsrmStep → List RouteStep
  | [] => []
  | s :: rest => mkStep i s :: mkStepsAux (i + 1) rest

/-- The step list built from `routeData.legs[0].steps`. -/
def mkSteps (ss : List OsrmStep) : List RouteStep :=
  mkStepsAux 0 ss

/-- The `calculatedRoute` object built from a provider route in the OSRM
variants: id `route-1`, provider distance/duration/geometry verbatim,
steps renumbered `step-0`, `step-1`, …. -/
def osrmRouteOf (o d : Location) (rd : OsrmRoute) : Route :=
  { id := "route-1"
    origin := o
    destination := d
    distance := rd.distance
    duration := rd.duration
    steps := mkSteps rd.steps
    geometry := rd.geometry }

/-- Error message shown by variant A for `code === 'NoRoute'`. -/
def noRouteMsg : String :=
  "No driving route available between these locations. The destinations may be in different regions or there may be no connecting roads."

/-- Error message shown by variant A when `routes` is empty. -/
def unableMsg : String :=
  "Unable to calculate route. Please try different locations or check if the destinations are accessible by road."

/-- Error message shown by variant A when the fetch throws. -/
def networkErrorMsg : String :=
  "Route calculation failed. Please check your internet connection and try again."

/-- `calculateRoute` of the autocomplete `DirectionsPanel` concatenated
into `src/types/maps.ts` (variant A): checks `data.code === 'NoRoute'`
first, then commits the first provider route, and reports every failure
through `setRouteError` — it has no fallback route. -/
def calculateRouteA (actualOrigin actualDestination : Option Location)
    (response : FetchResult OsrmResponse) : CalcOutcome :=
  match actualOrigin, actualDestination with
  | some o, some d =>
    match response with
    | .failure => .errorShown networkErrorMsg
    | .success data =>
      if data.code = "NoRoute" then .errorShown noRouteMsg
      else
        match data.routes with
        | [] => .errorShown unableMsg
        | rd :: _ => .routeCommitted (osrmRouteOf o d rd)
  | _, _ => .noAction

/-- The mock fallback route built in the `catch` block of
`src/components/DirectionsPanel.tsx` (variant B): fixed distance 5200 m
and duration 780 s, a four-point geometry offset by ±0.01 degrees, and a
single step with id `step-1`. -/
def mockFallbackRoute (o d : Location) : Route :=
  { id := "route-1"
    origin := o
    destination := d
    distance := 5200
    duration := 780
    geometry :=
      [o.coordinates,
       (o.coordinates.1 + 10000, o.coordinates.2 + 10000),
       (d.coordinates.1 - 10000, d.coordinates.2 - 10000),
       d.coordinates]
    steps :=
      [{ id := "step-1"
         instruction := "Head towards destination"
         distance := 5200
         duration := 780
         coordinates := [o.coordinates, d.coordinates] }] }

/-- `calculateRoute` of `src/components/DirectionsPanel.tsx` (variant B):
commits the first provider route when `data.routes` is non-empty; in
every other case — fetch failure, or an empty/missing `routes` array
(which includes a `code: 'NoRoute'` response, since this variant never
inspects `code`) — the thrown error is caught and the mock fallback
route is committed. -/
def calculateRouteB (origin destination : Option Location)
    (response : FetchResult OsrmResponse) : CalcOutcome :=
  match origin, destination with
  | some o, some d =>
    match response with
    | .failure => .routeCommitted (mockFallbackRoute o d)
    | .success data =>
      match data.routes with
      | [] => .routeCommitted (mockFallbackRoute o d)
      | rd :: _ => .routeCommitted (osrmRouteOf o d rd)
  | _, _ => .noAction

/-- The hard-coded demo route of `src/unnamed/part_003` (variant C):
fixed 5200 m / 780 s, four-point geometry, three steps with ids
`step-1`, `step-2`, `step-3`. -/
def mockRouteC (o d : Location) : Route :=
  { id := "route-1"
    origin := o
    destination := d
    distance := 5200
    duration := 780
    geometry :=
      [o.coordinates,
       (o.coordinates.1 + 10000, o.coordinates.2 + 10000),
       (d.coordinates.1 - 10000, d.coordinates.2 - 10000),
       d.coordinates]
    steps :=
      [{ id := "step-1"
         instruction := "Head north on Main Street"
         distance := 800
         duration := 120
         coordinates := [o.coordinates, (o.coordinates.1, o.coordinates.2 + 5000)] },
       { id := "step-2"
         instruction := "Turn right onto Broadway"
         distance := 1200
         duration := 180
         coordinates := [(o.coordinates.1, o.coordinates.2 + 5000),
                         (o.coordinates.1 + 10000, o.coordinates.2 + 10000)] },
       { id := "step-3"
         instruction := "Continue straight for 2.1 miles"
         distance := 3200
         duration := 480
         coordinates := [(o.coordinates.1 + 10000, o.coordinates.2 + 10000),
                         (d.coordinates.1 - 10000, d.coordinates.2 - 10000)] }] }

/-- `calculateRoute` of `src/unnamed/part_003` (variant C): always
commits the mock route when both endpoints are present. -/
def calculateRouteC (origin destination : Option Location) : CalcOutcome :=
  match origin, destination with
  | some o, some d => .routeCommitted (mockRouteC o d)
  | _, _ => .noAction

/-- One item of a parsed Nominatim forward-search response. -/
structure NominatimItem where
  place_id : Option Nat
  display_name : String
  lon : Int
  lat : Int
  type : Option String
deriving Repr, DecidableEq

/-- The `AutocompleteResult` shape of the variant-A `DirectionsPanel`. -/
structure AutocompleteResult where
  id : String
  name : String
  address : String
  coordinates : Int × Int
deriving Repr, DecidableEq

/-- JavaScript whitespace characters removed by `String.prototype.trim`
(the ones reachable here: space, tab, and line terminators). -/
def isJsWhitespace (c : Char) : Bool :=
  c = ' ' || c = '\t' || c = '\n' || c = '\r' || c = '\x0b' || c = '\x0c'

/-- `query.trim()`: drop leading and trailing whitespace. -/
def jsTrim (s : String) : String :=
  ⟨((s.data.dropWhile isJsWhitespace).reverse.dropWhile isJsWhitespace).reverse⟩

/-- `data.map((item, index) => ({...}))` of the variant-A
`searchLocations`: id from `place_id` with the index as fallback, name
is the display name up to the first comma. -/
def mkAutoResult (i : Nat) (item : NominatimItem) : AutocompleteResult :=
  { id := match item.place_id with
          | some n => toString n
          | none => toString i
    name := (item.display_name.splitOn ",").headD ""
    address := item.display_name
    coordinates := (item.lon, item.lat) }

/-- Index-carrying recursion for the variant-A result mapping. -/
def autoResultsAux (i : Nat) : List NominatimItem → List AutocompleteResult
  | [] => []
  | item :: rest => mkAutoResult i item :: autoResultsAux (i + 1) rest

/-- `searchLocations` of the variant-A `DirectionsPanel`
(`src/types/maps.ts` lines 89–108): an empty-after-trim query returns
`[]` before any fetch; a provider error also yields `[]`.  The first
component records whether the network was called. -/
def searchLocationsA (query : String)
    (response : FetchResult (List NominatimItem)) : Bool × List AutocompleteResult :=
  if jsTrim query = "" then (false, [])
  else
    match response with
    | .success items => (true, autoResultsAux 0 items)
    | .failure => (true, [])

/-- The result mapping of `SearchPanel.searchLocations`, which adds the
`type` field with default `'place'`. -/
def mkSearchResult (i : Nat) (item : NominatimItem) : SearchResult :=
  { id := match item.place_id with
          | some n => toString n
          | none => toString i
    name := (item.display_name.splitOn ",").headD ""
    address := item.display_name
    coordinates := (item.lon, item.lat)
    type := jsOr item.type "place" }

/-- Index-carrying recursion for the `SearchPanel` result mapping. -/
def searchResultsAux (i : Nat) : List NominatimItem → List SearchResult
  | [] => []
  | item :: rest => mkSearchResult i item :: searchResultsAux (i + 1) rest

/-- `searchLocations` of `SearchPanel` (concatenated into
`src/components/DirectionsPanel.tsx`): an empty-after-trim query commits
`[]` without a fetch; otherwise the mapped results (or `[]` on provider
error) are committed via `setSearchResults`.  Components: whether the
network was called, and the argument of the `setSearchResults` commit. -/
def searchLocationsS (query : String)
    (response : FetchResult (List NominatimItem)) : Bool × Option (List SearchResult) :=
  if jsTrim query = "" then (false, some [])
  else
    match response with
    | .success items => (true, some (searchResultsAux 0 items))
    | .failure => (true, some [])

/-- `setSearchResults(results)` as executed when a search response
arrives: the committed value unconditionally replaces the visible
results — there is no request-generation comparison in the source. -/
def applySearchCompletion (state : List SearchResult)
    (committed : Option (List SearchResult)) : List SearchResult :=
  committed.getD state

/-- Visible search results after a sequence of search completions has
arrived (in arrival order, which the event loop does not tie to issue
order). -/
def runSearchArrivals (init : List SearchResult)
    (completions : List (Option (List SearchResult))) : List SearchResult :=
  completions.foldl applySearchCompletion init

/-- The `useState` cell block of `src/pages/Index.tsx`. -/
structure IndexState where
  selectedLocation : Option Location
  currentLocation : Option Location
  route : Option Route
  isDirectionsMode : Bool
  destination : Option Location
deriving Repr, DecidableEq

/-- Initial `Index` state: every `useState` starts at `null`/`false`. -/
def initialIndexState : IndexState :=
  { selectedLocation := none
    currentLocation := none
    route := none
    isDirectionsMode := false
    destination := none }

/-- `handleLocationSelect` of `src/pages/Index.tsx`: sets the selection
and, in directions mode with a known current location, the pending
destination.  It does not touch `route`. -/
def handleLocationSelect (s : IndexState) (loc : Location) : IndexState :=
  if s.isDirectionsMode && s.currentLocation.isSome then
    { s with selectedLocation := some loc, destination := some loc }
  else
    { s with selectedLocation := some loc }

/-- `handleCurrentLocationFound` of `src/pages/Index.tsx`. -/
def handleCurrentLocationFound (s : IndexState) (loc : Location) : IndexState :=
  { s with currentLocation := some loc }

/-- `handleDirectionsToggle` of `src/pages/Index.tsx`: flips the mode and
clears `route` and `destination`. -/
def handleDirectionsToggle (s : IndexState) : IndexState :=
  { s with isDirectionsMode := !s.isDirectionsMode
           route := none
           destination := none }

/-- `handleRouteCalculated` of `src/pages/Index.tsx`. -/
def handleRouteCalculated (s : IndexState) (r : Route) : IndexState :=
  { s with route := some r }

/-- Effect of a `calculateRoute` outcome on the `Index` state: only a
committed route reaches `handleRouteCalculated`; an error message or a
no-op leaves the state untouched. -/
def applyCalcOutcome (s : IndexState) : CalcOutcome → IndexState
  | .routeCommitted r => handleRouteCalculated s r
  | _ => s

/-- A parsed Nominatim reverse-geocoding response (`display_name` may be
absent). -/
structure NominatimReverse where
  display_name : Option String
deriving Repr, DecidableEq

/-- One feature of a parsed Mapbox reverse-geocoding response. -/
structure MapboxFeature where
  text : Option String
  place_name : Option String
deriving Repr, DecidableEq

/-- A parsed Mapbox reverse-geocoding response. -/
structure MapboxReverse where
  features : List MapboxFeature
deriving Repr, DecidableEq

/-- The map-click handler of the Leaflet `MapView`
(`src/unnamed/part_002`, identically in `part_000`): both the success
and the catch path build a Location at the click coordinates and pass it
to `onLocationSelect`.  `nowId` stands for `Date.now().toString()`. -/
def mapClickP2 (lat lng : Int) (nowId : String)
    (response : FetchResult NominatimReverse) : Location :=
  match response with
  | .success data =>
    { id := nowId
      name := jsOr (data.display_name.map fun s => (s.splitOn ",").headD "")
                "Selected Location"
      address := jsOr data.display_name (fmtLatLng lat lng)
      coordinates := (lng, lat) }
  | .failure =>
    { id := nowId
      name := "Selected Location"
      address := fmtLatLng lat lng
      coordinates := (lng, lat) }

/-- The map-click handler of the Mapbox `MapView`
(`src/unnamed/part_001`): a Location is delivered only when the fetch
succeeds and `features` is non-empty; the catch path and the
empty-features path call nothing. -/
def mapClickP1 (lng lat : Int) (nowId : String)
    (response : FetchResult MapboxReverse) : Option Location :=
  match response with
  | .failure => none
  | .success data =>
    match data.features with
    | [] => none
    | f :: _ =>
      some { id := nowId
             name := jsOr f.text "Selected Location"
             address := jsOr f.place_name (fmtLatLng lat lng)
             coordinates := (lng, lat) }

/-- The failure codes of `navigator.geolocation.getCurrentPosition`. -/
inductive GeoErrorCode where
  | permissionDenied
  | positionUnavailable
  | timeout
  | other
deriving Repr, DecidableEq

/-- Outcome of the device position acquisition: a `(lon, lat)` fix or an
error code. -/
inductive GeoResult where
  | success (lon lat : Int)
  | error (code : GeoErrorCode)
deriving Repr, DecidableEq

/-- Everything a `getCurrentLocation` invocation does: the Location
passed to `onCurrentLocationFound` (if any), the viewport commands
emitted (raw center argument and zoom, in order), and the toast
message (if any). -/
structure GeoOutcome where
  found : Option Location
  setViews : List ((Int × Int) × Nat)
  toast : Option String
deriving Repr, DecidableEq

/-- The toast text per failure code in `src/unnamed/part_002`. -/
def geoErrorMessage : GeoErrorCode → String
  | .permissionDenied => "Location access denied. Please enable location permissions."
  | .positionUnavailable => "Location information is unavailable."
  | .timeout => "Location request timed out."
  | .other => "Unable to retrieve your location."

/-- `getCurrentLocation` of the Leaflet `MapView`
(`src/unnamed/part_002`): on a position fix, both the reverse-geocode
success path and its catch path deliver a Location with id
`current-location` and call `setView([lat, lng], 15)`; a geolocation
failure only raises a toast. -/
def getCurrentLocationP2 (geo : GeoResult)
    (response : FetchResult NominatimReverse) : GeoOutcome :=
  match geo with
  | .error c => { found := none, setViews := [], toast := some (geoErrorMessage c) }
  | .success lon lat =>
    match response with
    | .success data =>
      { found := some
          { id := "current-location"
            name := "Current Location"
            address := jsOr data.display_name (fmtLatLng lat lon)
            coordinates := (lon, lat) }
        setViews := [((lat, lon), 15)]
        toast := none }
    | .failure =>
      { found := some
          { id := "current-location"
            name := "Current Location"
            address := fmtLatLng lat lon
            coordinates := (lon, lat) }
        setViews := [((lat, lon), 15)]
        toast := none }

/-- `getCurrentLocation` of the Mapbox `MapView`
(`src/unnamed/part_001`): only the reverse-geocode success path delivers
a Location (the catch path merely logs); `flyTo` centers on the raw
`(lon, lat)` pair at zoom 15. -/
def getCurrentLocationP1 (geo : GeoResult)
    (response : FetchResult MapboxReverse) : GeoOutcome :=
  match geo with
  | .error _ =>
    { found := none, setViews := []
      toast := some "Unable to retrieve your location. Please enable location services." }
  | .success lon lat =>
    match response with
    | .failure => { found := none, setViews := [], toast := none }
    | .success data =>
      { found := some
          { id := "current-location"
            name := "Current Location"
            address := jsOr (match data.features with
                             | f :: _ => f.place_name
                             | [] => none)
                        (fmtLatLng lat lon)
            coordinates := (lon, lat) }
        setViews := [((lon, lat), 15)]
        toast := none }

/-- The observable map-view state affected by the locate flow: the
`currentLocation` cell of `Index` and the viewport. -/
structure ViewState where
  currentLocation : Option Location
  center : Int × Int
  zoom : Nat
deriving Repr, DecidableEq

/-- Apply a `GeoOutcome`: `onCurrentLocationFound` commits the found
Location (if any), and the last viewport command (if any) moves the
viewport. -/
def applyGeoOutcome (s : ViewState) (o : GeoOutcome) : ViewState :=
  let s1 := match o.found with
            | some l => { s with currentLocation := some l }
            | none => s
  match o.setViews.getLast? with
  | some (c, z) => { s1 with center := c, zoom := z }
  | none => s1

/-- One "use my location" round trip through the Leaflet `MapView`. -/
def locateFlowP2 (s : ViewState) (geo : GeoResult)
    (response : FetchResult NominatimReverse) : ViewState :=
  applyGeoOutcome s (getCurrentLocationP2 geo response)

/-- A Leaflet layer held in `markersRef` of `src/unnamed/part_002`: the
selection marker, a current-location marker, or the route polyline (the
source keeps all three in one unstructured list). -/
inductive Layer where
  | selectedMarker (loc : Location)
  | currentMarker (loc : Location)
  | routePolyline (geometry : List (Int × Int))
deriving Repr, DecidableEq

/-- The `selectedLocation` effect of `src/unnamed/part_002`: it first runs
`clearMarkers()` (which removes every layer in `markersRef`, whatever its
role) and then pushes the marker for the new selection. -/
def selectedEffect (_ms : List Layer) (loc : Location) : List Layer :=
  [.selectedMarker loc]

/-- The `currentLocation` effect of `src/unnamed/part_002`: it pushes a
marker without removing any previous one. -/
def currentEffect (ms : List Layer) (loc : Location) : List Layer :=
  ms ++ [.currentMarker loc]

/-- The `route` effect of `src/unnamed/part_002`: it pushes the polyline
without removing any previous layer. -/
def routeDrawEffect (ms : List Layer) (r : Route) : List Layer :=
  ms ++ [.routePolyline r.geometry]

/-- Recognizer for current-location markers. -/
def isCurrentMarker : Layer → Bool
  | .currentMarker _ => true
  | _ => false

/-- Recognizer for selection markers. -/
def isSelectedMarker : Layer → Bool
  | .selectedMarker _ => true
  | _ => false

/-- Concrete origin used by counterexamples, at `(-74, 40.7)`. -/
def locOrigin : Location :=
  { id := "o1", name := "Origin", address := "Origin Address"
    coordinates := (-74000000, 40700000) }

/-- Concrete destination used by counterexamples, at `(-73.9, 40.8)`. -/
def locDest : Location :=
  { id := "d1", name := "Destination", address := "Destination Address"
    coordinates := (-73900000, 40800000) }

/-- A third concrete location, distinct from `locOrigin` and `locDest`. -/
def locThird : Location :=
  { id := "b1", name := "Elsewhere", address := "Elsewhere Address"
    coordinates := (-73000000, 41000000) }

/-- A provider route whose geometry is snapped to the road network, so
its first point differs from the requested origin coordinates. -/
def osrmSnapped : OsrmRoute :=
  { distance := 14200
    duration := 1260
    geometry := [(-74000100, 40700200), (-73900000, 40800000)]
    steps := [{ instruction := some "Drive northeast"
                distance := 14200
                duration := 1260
                coordinates := [(-74000100, 40700200)] }] }

/-- A Nominatim item for a "Central ..." search result. -/
def itemCentral : NominatimItem :=
  { place_id := some 101, display_name := "Central Something, NYC"
    lon := -74000000, lat := 40700000, type := some "place" }

/-- A Nominatim item for a "Central Park" search result. -/
def itemPark : NominatimItem :=
  { place_id := some 202, display_name := "Central Park, NYC"
    lon := -73965000, lat := 40782000, type := some "park" }

/-! ## Helper lemmas -/

/-- The ids produced by the index-carrying step mapping, starting at `i`. -/
theorem mkStepsAux_map_id (ss : List OsrmStep) :
    ∀ i, (mkStepsAux i ss).map RouteStep.id
      = (List.range' i ss.length).map (fun j => "step-" ++ toString j) := by
  induction ss with
  | nil => intro i; rfl
  | cons s rest ih =>
    intro i
    simp [mkStepsAux, mkStep, List.range', ih (i + 1)]

/-- Step ids of an OSRM-built step list are `step-0 … step-(n-1)`. -/
theorem mkSteps_map_id (ss : List OsrmStep) :
    (mkSteps ss).map RouteStep.id
      = (List.range ss.length).map (fun j => "step-" ++ toString j) := by
  rw [mkSteps, mkStepsAux_map_id, List.range_eq_range']

/-- The step mapping preserves length. -/
theorem mkStepsAux_length (ss : List OsrmStep) :
    ∀ i, (mkStepsAux i ss).length = ss.length := by
  induction ss with
  | nil => intro i; rfl
  | cons s rest ih => intro i; simp [mkStepsAux, ih]

/-- A string of whitespace characters trims to the empty string. -/
theorem jsTrim_eq_empty {s : String} (h : s.data.all isJsWhitespace = true) :
    jsTrim s = "" := by
  unfold jsTrim
  have h1 : s.data.dropWhile isJsWhitespace = [] := by
    rw [List.dropWhile_eq_nil_iff]
    intro x hx
    exact List.all_eq_true.mp h x hx
  rw [h1]
  rfl

/-! ## Claims -/

/-- C1, counterexample.  The claim cites both `calculateRoute` variants,
asserting that a `code: "NoRoute"` response raises a user-visible
condition and that no route is ever committed via `onRouteCalculated` in
that case.  This refutes it at the spec's own scenario input
(origin `(-74, 40.7)`, destination `(-73.9, 40.8)`): the
`src/components/DirectionsPanel.tsx` variant never inspects `data.code`,
so a `NoRoute` response (whose route list is empty) falls into the
catch-all fallback, the mock route is committed via `onRouteCalculated`,
and `MapState.route` becomes that route instead of staying `null`. -/
theorem C1_counterexample :
    calculateRouteB (some locOrigin) (some locDest)
        (.success { code := "NoRoute", routes := [] })
      = .routeCommitted (mockFallbackRoute locOrigin locDest)
    ∧ (applyCalcOutcome initialIndexState
          (calculateRouteB (some locOrigin) (some locDest)
            (.success { code := "NoRoute", routes := [] }))).route
        = some (mockFallbackRoute locOrigin locDest)
    ∧ some (mockFallbackRoute locOrigin locDest) ≠ (none : Option Route) :=
  ⟨rfl, rfl, by simp⟩

/-- C1, amended.  On a `code: "NoRoute"` response, the `maps.ts` variant
of `calculateRoute` surfaces the user-visible "no driving route" error,
commits no route, and leaves `MapState.route` unchanged (so a `null`
route stays `null`); the `DirectionsPanel.tsx` variant instead commits
the mock fallback route, because it never inspects `code`. -/
theorem C1_amended_noRoute_behavior (o d : Location) (s : IndexState)
    (rs : List OsrmRoute) :
    calculateRouteA (some o) (some d) (.success { code := "NoRoute", routes := rs })
      = .errorShown noRouteMsg
    ∧ (applyCalcOutcome s (calculateRouteA (some o) (some d)
          (.success { code := "NoRoute", routes := rs }))).route = s.route
    ∧ calculateRouteB (some o) (some d) (.success { code := "NoRoute", routes := [] })
      = .routeCommitted (mockFallbackRoute o d) := by
  have h1 : calculateRouteA (some o) (some d)
      (.success { code := "NoRoute", routes := rs }) = .errorShown noRouteMsg := by
    simp [calculateRouteA]
  exact ⟨h1, by rw [h1]; rfl, rfl⟩

/-- C2, counterexample.  The claim says the fallback route's distance is
"the great-circle or planar approximation" and its duration proportional
to that distance.  Any such approximation assigns 0 to coincident
endpoints and varies with the endpoints; the committed fallback distance
is the constant 5200 — non-zero for a route from a point to itself, and
identical for wildly different destinations. -/
theorem C2_counterexample :
    calculateRouteB (some locOrigin) (some locOrigin) .failure
      = .routeCommitted (mockFallbackRoute locOrigin locOrigin)
    ∧ (mockFallbackRoute locOrigin locOrigin).origin.coordinates
        = (mockFallbackRoute locOrigin locOrigin).destination.coordinates
    ∧ (mockFallbackRoute locOrigin locOrigin).distance = 5200
    ∧ (mockFallbackRoute locOrigin locOrigin).distance
        = (mockFallbackRoute locOrigin locDest).distance
    ∧ (5200 : Int) ≠ 0 :=
  ⟨rfl, rfl, rfl, rfl, by decide⟩

/-- C2, amended.  With the fallback-enabled variant
(`src/components/DirectionsPanel.tsx`), `calculate` never surfaces
`ProviderUnavailable`: every invocation with both endpoints commits a
route, and on provider failure it commits the deterministic fallback
route whose geometry is the four-point path from origin to destination
(offset by ±0.01°), with exactly one synthetic step
"Head towards destination" — but with fixed distance 5200 m and fixed
duration 780 s, independent of the endpoints. -/
theorem C2_amended_fallback_route (o d : Location)
    (resp : FetchResult OsrmResponse) :
    (calculateRouteB (some o) (some d) resp).isCommitted = true
    ∧ calculateRouteB (some o) (some d) .failure
        = .routeCommitted (mockFallbackRoute o d)
    ∧ (mockFallbackRoute o d).geometry
        = [o.coordinates,
           (o.coordinates.1 + 10000, o.coordinates.2 + 10000),
           (d.coordinates.1 - 10000, d.coordinates.2 - 10000),
           d.coordinates]
    ∧ (mockFallbackRoute o d).steps.map RouteStep.instruction
        = ["Head towards destination"]
    ∧ (mockFallbackRoute o d).steps.length = 1
    ∧ (mockFallbackRoute o d).distance = 5200
    ∧ (mockFallbackRoute o d).duration = 780 := by
  refine ⟨?_, rfl, rfl, rfl, rfl, rfl, rfl⟩
  rcases resp with ⟨data⟩ | _
  · rcases data with ⟨c, rs⟩
    cases rs <;> rfl
  · rfl

/-- C3, counterexample.  The claim says `reverseGeocode` never fails the
caller and that on provider error the synthesized Location's
name/address is the coordinate pair formatted to 6 decimal places.  In
the Mapbox `MapView` (`src/unnamed/part_001`), a provider error on a map
click at `(40.71, -74)` delivers no Location at all; and in the Leaflet
`MapView` (`src/unnamed/part_002`), the synthesized name is the constant
"Selected Location", not the formatted coordinate pair. -/
theorem C3_counterexample :
    mapClickP1 (-74000000) 40710000 "1700000000000" .failure = none
    ∧ (mapClickP2 40710000 (-74000000) "1700000000000" .failure).name
        = "Selected Location"
    ∧ "Selected Location" ≠ fmtLatLng 40710000 (-74000000) :=
  ⟨rfl, rfl, by decide⟩

/-- C3, amended.  In the Leaflet `MapView`, every click yields a Location
whose coordinates equal the click coordinates exactly regardless of
provider success or failure, and on provider error the synthesized
Location has address equal to the coordinate pair formatted to 6 decimal
places but name "Selected Location".  In the Mapbox `MapView`, a
Location, when one is produced at all, also carries the click
coordinates exactly — but provider error or an empty feature list
produces none. -/
theorem C3_amended_reverse_geocode (lat lng : Int) (nowId : String)
    (rev : FetchResult NominatimReverse) (rev2 : FetchResult MapboxReverse) :
    (mapClickP2 lat lng nowId rev).coordinates = (lng, lat)
    ∧ mapClickP2 lat lng nowId .failure
        = { id := nowId, name := "Selected Location"
            address := fmtLatLng lat lng, coordinates := (lng, lat) }
    ∧ ((mapClickP1 lng lat nowId rev2).map Location.coordinates).getD (lng, lat)
        = (lng, lat) := by
  refine ⟨?_, rfl, ?_⟩
  · cases rev <;> rfl
  · rcases rev2 with ⟨data⟩ | _
    · rcases data with ⟨fs⟩
      cases fs <;> rfl
    · rfl

/-- C4, counterexample.  The claim says that after `selectLocation(loc)`
with `loc` different from the active route's destination, `route` is
`null`.  In `src/pages/Index.tsx`, `handleLocationSelect` never touches
`route`: starting from a state with an active route to `locDest` and
selecting `locThird` (≠ that destination), the route survives. -/
theorem C4_counterexample :
    (handleLocationSelect
        { initialIndexState with route := some (mockFallbackRoute locOrigin locDest) }
        locThird).route
      = some (mockFallbackRoute locOrigin locDest)
    ∧ locThird ≠ (mockFallbackRoute locOrigin locDest).destination
    ∧ some (mockFallbackRoute locOrigin locDest) ≠ (none : Option Route) :=
  ⟨rfl, by decide, by simp⟩

/-- C4, amended.  `handleLocationSelect` sets `selectedLocation` but
leaves `route` unchanged for every state and every selected location —
stale routes are not cleared by selection; `route` (together with the
pending destination) is cleared only by `handleDirectionsToggle`. -/
theorem C4_amended_selection_preserves_route (s : IndexState) (loc : Location) :
    (handleLocationSelect s loc).route = s.route
    ∧ (handleLocationSelect s loc).selectedLocation = some loc
    ∧ (handleDirectionsToggle s).route = none
    ∧ (handleDirectionsToggle s).destination = none := by
  refine ⟨?_, ?_, rfl, rfl⟩ <;>
    · unfold handleLocationSelect
      split <;> rfl

/-- C5, counterexample.  The claim requires step ids
`step-0 … step-(n-1)` and geometry endpoints equal to the origin and
destination coordinates for every successfully returned route.  The
route committed by the `part_003` variant carries ids
`step-1, step-2, step-3`; and the OSRM variants copy provider geometry
verbatim, so a road-snapped response yields `geometry[0]` different from
`origin.coordinates`. -/
theorem C5_counterexample :
    calculateRouteC (some locOrigin) (some locDest)
      = .routeCommitted (mockRouteC locOrigin locDest)
    ∧ (mockRouteC locOrigin locDest).steps.map RouteStep.id
        = ["step-1", "step-2", "step-3"]
    ∧ (["step-1", "step-2", "step-3"] : List String) ≠ ["step-0", "step-1", "step-2"]
    ∧ calculateRouteA (some locOrigin) (some locDest)
        (.success { code := "Ok", routes := [osrmSnapped] })
      = .routeCommitted (osrmRouteOf locOrigin locDest osrmSnapped)
    ∧ (osrmRouteOf locOrigin locDest osrmSnapped).geometry.head?
        = some (-74000100, 40700200)
    ∧ some ((-74000100 : Int), (40700200 : Int)) ≠ some locOrigin.coordinates := by
  refine ⟨rfl, rfl, by decide, ?_, rfl, by decide⟩
  simp [calculateRouteA]

/-- C5, amended.  Routes built from an OSRM success response carry the
provider geometry verbatim (its endpoints match the requested
coordinates only up to provider road-snapping) and steps renumbered
`step-0 … step-(n-1)` in traversal order, non-empty exactly when the
provider supplied steps; the mock routes (`DirectionsPanel.tsx` fallback
and the `part_003` demo route) do start at `origin.coordinates` and end
at `destination.coordinates`, but number their steps from `step-1`. -/
theorem C5_amended_route_shape (o d : Location) (rd : OsrmRoute)
    (rest : List OsrmRoute) :
    calculateRouteA (some o) (some d) (.success { code := "Ok", routes := rd :: rest })
      = .routeCommitted (osrmRouteOf o d rd)
    ∧ (osrmRouteOf o d rd).geometry = rd.geometry
    ∧ (osrmRouteOf o d rd).steps.map RouteStep.id
        = (List.range rd.steps.length).map (fun i => "step-" ++ toString i)
    ∧ (osrmRouteOf o d rd).steps.length = rd.steps.length
    ∧ (mockFallbackRoute o d).geometry.head? = some o.coordinates
    ∧ (mockFallbackRoute o d).geometry.getLast? = some d.coordinates
    ∧ (mockRouteC o d).geometry.head? = some o.coordinates
    ∧ (mockRouteC o d).geometry.getLast? = some d.coordinates
    ∧ (mockRouteC o d).steps.map RouteStep.id = ["step-1", "step-2", "step-3"] := by
  refine ⟨?_, rfl, ?_, ?_, rfl, rfl, rfl, rfl, rfl⟩
  · simp [calculateRouteA]
  · exact mkSteps_map_id rd.steps
  · exact mkStepsAux_length rd.steps 0

/-- C6, counterexample.  The claim requires that a result belonging to a
superseded search request is discarded on arrival.  `SearchPanel`'s
`searchLocations` commits every arriving result with a bare
`setSearchResults(results)` and no generation comparison (and the
cleanup function returned from the `onChange` handler is never invoked,
so the stale timer is not even cancelled).  With "Central" issued before
"Central Park" but its response arriving second, the stale "Central"
results overwrite the newer "Central Park" results in UI-visible state. -/
theorem C6_counterexample :
    runSearchArrivals []
        [(searchLocationsS "Central Park" (.success [itemPark])).2,
         (searchLocationsS "Central" (.success [itemCentral])).2]
      = [mkSearchResult 0 itemCentral]
    ∧ [mkSearchResult 0 itemCentral] ≠ [mkSearchResult 0 itemPark] :=
  ⟨rfl, by decide⟩

/-- C6, amended.  Search results are committed unconditionally in
arrival order: whichever response arrives last — regardless of which
request it belongs to — determines the UI-visible results, because the
commit ignores the previous state and performs no generation check. -/
theorem C6_amended_last_arrival_wins (init : List SearchResult)
    (comps : List (Option (List SearchResult))) (r : List SearchResult) :
    runSearchArrivals init (comps ++ [some r]) = r
    ∧ applySearchCompletion init (some r) = r := by
  constructor
  · simp [runSearchArrivals, List.foldl_append, applySearchCompletion]
  · rfl

/-- C7: a query that is empty or consists only of whitespace makes both
`searchLocations` variants return before the `fetch`: no network call is
made, and the result (variant A) resp. the committed state (the
`SearchPanel` variant) is the empty sequence. -/
theorem C7_whitespace_query_no_network (q : String)
    (ra rs : FetchResult (List NominatimItem))
    (h : q.data.all isJsWhitespace = true) :
    searchLocationsA q ra = (false, [])
    ∧ searchLocationsS q rs = (false, some []) := by
  have ht := jsTrim_eq_empty h
  constructor <;> simp [searchLocationsA, searchLocationsS, ht]

/-- C7, witness at the whitespace-only query `"  \t "`. -/
theorem C7_whitespace_query_no_network_witness :
    ("  \t ".data.all isJsWhitespace = true)
    ∧ (searchLocationsA "  \t " .failure = (false, [])
        ∧ searchLocationsS "  \t " .failure = (false, some [])) :=
  ⟨by decide, C7_whitespace_query_no_network "  \t " .failure .failure (by decide)⟩

/-- C8, counterexample.  The claim says a current-location fix recenters
the viewport only when no prior current location existed.  The Leaflet
`getCurrentLocation` calls `setView([lat, lng], 15)` on every successful
fix: after a first fix establishes a current location, a second fix at
different coordinates still changes the viewport center. -/
theorem C8_counterexample :
    ((locateFlowP2
        { currentLocation := none, center := (40712800, -74006000), zoom := 10 }
        (.success (-74000000) 40700000) .failure).currentLocation).isSome = true
    ∧ (locateFlowP2
        (locateFlowP2
          { currentLocation := none, center := (40712800, -74006000), zoom := 10 }
          (.success (-74000000) 40700000) .failure)
        (.success (-73900000) 40800000) .failure).center
      ≠ (locateFlowP2
          { currentLocation := none, center := (40712800, -74006000), zoom := 10 }
          (.success (-74000000) 40700000) .failure).center :=
  ⟨rfl, by decide⟩

/-- C8, amended.  `handleCurrentLocationFound` sets `currentLocation`
and leaves `route` and `selectedLocation` untouched, but every
successful fix in the Leaflet `getCurrentLocation` — not just the
first — delivers a Location and emits `setView((lat, lon), 15)`,
recentering the viewport regardless of any prior current location. -/
theorem C8_amended_always_recenters (s : IndexState) (loc : Location)
    (lon lat : Int) (rev : FetchResult NominatimReverse) :
    (handleCurrentLocationFound s loc).currentLocation = some loc
    ∧ (handleCurrentLocationFound s loc).route = s.route
    ∧ (handleCurrentLocationFound s loc).selectedLocation = s.selectedLocation
    ∧ (getCurrentLocationP2 (.success lon lat) rev).setViews = [((lat, lon), 15)]
    ∧ ((getCurrentLocationP2 (.success lon lat) rev).found).isSome = true := by
  refine ⟨rfl, rfl, rfl, ?_, ?_⟩ <;> cases rev <;> rfl

/-- C9, counterexample.  The claim says at most one marker per role
exists at any time and that setting a role's marker removes the previous
marker of that role only.  In the Leaflet `MapView`, the
`currentLocation` effect pushes markers without removing anything — two
consecutive fixes leave two current markers — and the
`selectedLocation` effect runs `clearMarkers()`, which removes every
layer including the current-location marker. -/
theorem C9_counterexample :
    (currentEffect (currentEffect [] locOrigin) locDest).countP isCurrentMarker = 2
    ∧ selectedEffect (currentEffect [] locOrigin) locThird
        = [.selectedMarker locThird]
    ∧ (selectedEffect (currentEffect [] locOrigin) locThird).countP isCurrentMarker
        = 0
    ∧ (currentEffect [] locOrigin).countP isCurrentMarker = 1 :=
  ⟨by decide, rfl, by decide, by decide⟩

/-- C9, amended.  Two `selectLocation` calls with A then B do leave
`selectedLocation = B` and exactly one selection marker — indeed exactly
one marker in total, because the selection effect first clears all
layers of every role; and the current-location effect appends its marker
without removing the previous one, so current markers accumulate rather
than being kept unique per role. -/
theorem C9_amended_marker_model (s : IndexState) (A B : Location)
    (ms : List Layer) (c : Location) :
    (handleLocationSelect (handleLocationSelect s A) B).selectedLocation = some B
    ∧ selectedEffect (selectedEffect ms A) B = [.selectedMarker B]
    ∧ (selectedEffect ms B).countP isSelectedMarker = 1
    ∧ currentEffect ms c = ms ++ [.currentMarker c] := by
  refine ⟨?_, rfl, rfl, rfl⟩
  unfold handleLocationSelect
  split <;> rfl

/-- C10: every Location delivered by the "use my location" flow — in
both the Leaflet and the Mapbox `MapView`, for every device position and
regardless of whether the reverse-geocode lookup succeeds — has id
`current-location` and name `Current Location`; consecutive fixes
therefore share one identity rather than getting fresh identifiers. -/
theorem C10_current_location_identity (g g2 : GeoResult)
    (rev : FetchResult NominatimReverse) (rev2 : FetchResult MapboxReverse) :
    ((getCurrentLocationP2 g rev).found.all
        fun l => l.id == "current-location" && l.name == "Current Location") = true
    ∧ ((getCurrentLocationP1 g2 rev2).found.all
        fun l => l.id == "current-location" && l.name == "Current Location") = true := by
  constructor
  · cases g with
    | error c => rfl
    | success lon lat => cases rev <;> rfl
  · cases g2 with
    | error c => rfl
    | success lon lat => cases rev2 <;> rfl
